import Mathlib

/-!
Verification of the color-blind-contrast engine in
`src/plugins/cbcontrast/index.js` (class `ColorBlindContrastPlugin`).

The plugin's own logic (`blind`, `runOneType`, `run`) is embedded directly
from the source.  The color-science helpers it calls
(`color-blind/lib/blind`, `axs.utils.colorToString`, `axs.utils.isLargeFont`,
`axs.utils.isLowContrast`, `axs.utils.calculateContrastRatio`) live in
external libraries that are not part of this repository; where a claim
depends on them they are modelled from the specification, each such
definition marked `Modelled from the spec:` in its doc comment.

JavaScript numbers are embedded as rationals (ℚ); the claims under study
involve no floating-point-specific behavior.
-/

namespace Tota11y

/-- An `axs.utils.Color`: red/green/blue channels (0–255 in valid colors)
and an alpha channel. Channels are JS numbers, embedded as ℚ. -/
structure Color where
  red : ℚ
  green : ℚ
  blue : ℚ
  alpha : ℚ
deriving DecidableEq, Repr

/-- Truncation toward zero of a rational, the first step of the JS
`ToInt32` conversion performed by the `| 0` idiom in `blind`. -/
def truncQ (x : ℚ) : ℤ := if 0 ≤ x then ⌊x⌋ else -⌊-x⌋

/-- JS `x | 0`: `ToInt32(x)` — truncate toward zero, reduce mod 2^32,
then map into the signed range [-2^31, 2^31). -/
def toInt32 (x : ℚ) : ℤ :=
  let m := truncQ x % (2 ^ 32 : ℤ)
  if m < 2 ^ 31 then m else m - 2 ^ 32

/-- Clamping of a simulated channel into the valid range [0, 255]. -/
def clamp255 (x : ℚ) : ℚ := max 0 (min x 255)

/-- Modelled from the spec: the deficiency-specific coefficients of the
external simulation library (`color-blind/lib/blind`, absent from src).
Per §4.1 each deficiency type applies "its own fixed 3×3-style coefficient
behavior" to the RGB triple. -/
structure BlindMatrix where
  rr : ℚ
  rg : ℚ
  rb : ℚ
  gr : ℚ
  gg : ℚ
  gb : ℚ
  br : ℚ
  bg : ℚ
  bb : ℚ
deriving DecidableEq, Repr

/-- Raw (unclamped) red channel of the linear transform. -/
def rawR (m : BlindMatrix) (c : Color) : ℚ := m.rr * c.red + m.rg * c.green + m.rb * c.blue

/-- Raw (unclamped) green channel of the linear transform. -/
def rawG (m : BlindMatrix) (c : Color) : ℚ := m.gr * c.red + m.gg * c.green + m.gb * c.blue

/-- Raw (unclamped) blue channel of the linear transform. -/
def rawB (m : BlindMatrix) (c : Color) : ℚ := m.br * c.red + m.bg * c.green + m.bb * c.blue

/-- Modelled from the spec: the external `blinder` call (the `Blind`
function of `color-blind/lib/blind`).  Per §4.1 it applies the linear
transform and its "output channel values are clamped" into the valid
range; the floor-truncation to integers is done by the plugin itself
(`| 0`, see `blind` below). -/
def blinder (m : BlindMatrix) (c : Color) : ℚ × ℚ × ℚ :=
  (clamp255 (rawR m c), clamp255 (rawG m c), clamp255 (rawB m c))

/-- `ColorBlindContrastPlugin.blind` (src lines 41–54): saves the alpha
channel, runs the external simulation on the R/G/B triple, and rebuilds a
color from the `| 0`-truncated result channels with the saved alpha. -/
def blind (m : BlindMatrix) (color : Color) : Color :=
  let alpha := color.alpha
  let simulated := blinder m color
  { red := (toInt32 simulated.1 : ℚ)
    green := (toInt32 simulated.2.1 : ℚ)
    blue := (toInt32 simulated.2.2 : ℚ)
    alpha := alpha }

/-- Modelled from the spec: `axs.utils.colorToString` (external, absent
from src) renders a color's four channels into a canonical string; two
colors with equal channel values produce equal strings. -/
def colorToString (c : Color) : String :=
  "rgba(" ++ toString c.red ++ ", " ++ toString c.green ++ ", " ++
    toString c.blue ++ ", " ++ toString c.alpha ++ ")"

/-- Modelled from the spec: the minimal style facts the threshold policy
needs — font size (possibly missing/ambiguous) and whether the font is
bold (§3 TextStyle). -/
structure TextStyle where
  fontSize : Option ℚ
  bold : Bool
deriving DecidableEq, Repr

/-- Modelled from the spec: `axs.utils.isLargeFont` (external, absent from
src).  Per §4.3, large text is "bold text above a configurable size
threshold, or regular text above a higher size threshold"; when size data
is missing the style is not classified as large text (§7: default to the
non-large-text requirement). `boldTh` and `regTh` are the two
configurable thresholds. -/
def isLargeFont (boldTh regTh : ℚ) (style : TextStyle) : Bool :=
  match style.fontSize with
  | none => false
  | some size => (style.bold && decide (boldTh < size)) || decide (regTh < size)

/-- The required-ratio string chosen at src lines 59–60:
`axs.utils.isLargeFont(style) ? "3.0" : "4.5"` ("using strings to prevent
rounding"). -/
def requiredStr (large : Bool) : String := if large then "3.0" else "4.5"

/-- The numeric value denoted by a required-ratio string (JS coerces the
string to a number when comparing): "3.0" denotes 3 and "4.5" denotes 9/2. -/
def requiredVal (req : String) : ℚ := if req = "3.0" then 3 else Rat.divInt 9 2

/-- Modelled from the spec: `isSufficient(ratio, requiredRatio)` (§4.3,
realized externally by `axs.utils.isLowContrast`, absent from src) —
true iff the numeric ratio is at least the numeric value of the
required-ratio string (inclusive boundary). -/
def isSufficient (r : ℚ) (req : String) : Bool := decide (requiredVal req ≤ r)

/-- Modelled from the spec: `axs.utils.isLowContrast(contrastRatio, style)`
(external, absent from src) as used at src line 74 — the negation of
`isSufficient` for the requirement selected by the large-font
classification; the two-decimal ratio string is coerced to its numeric
value `r`. -/
def isLowContrast (r : ℚ) (large : Bool) : Bool := decide (r < requiredVal (requiredStr large))

/-- Model of JS `Number.prototype.toFixed(2)` as used at src line 72
(spec §4.2: "rounded to exactly two decimal digits using standard
rounding"): the numeric value denoted by the produced two-decimal string. -/
def toFixed2 (x : ℚ) : ℚ := Rat.divInt (round (100 * x)) 100

/-- The external collaborators `runOneType` calls, passed as parameters:
the large-font classification, the contrast computation
(`axs.utils.calculateContrastRatio`), and the per-deficiency simulation
coefficients used by `blinder`. -/
structure Env where
  largeFont : TextStyle → Bool
  contrast : Color → Color → ℚ
  matrixOf : String → BlindMatrix

/-- A value stored in the `combinations` map (src lines 85 and 95):
either the literal `true` recorded for a passing combination, or the
error object returned by `addError` for a failing one, identified by the
opaque handle `h`.  Both are JS-truthy, so presence in the map is what
the `!combinations[key]` tests observe. -/
inductive Entry where
  | passed : Entry
  | errorRef : ℕ → Entry
deriving DecidableEq, Repr

/-- An observable effect emitted by `runOneType` on element `el`:
`successLabel` is `annotate.label(...).addClass("tota11y-label-success")`
(src lines 78–80), `newError` is the `addError` call creating a report
entry with a fresh handle (src lines 91–93, the `reportFn` of the spec),
and `errorLabel` is `annotate.errorLabel(...)` pointing at the stored
entry (src lines 104–108). `cr` is the two-decimal contrast value shown,
`bn` the display name of the deficiency. -/
inductive Action where
  | successLabel : ℕ → ℚ → Action
  | newError : ℕ → String → ℕ → Action
  | errorLabel : ℕ → ℚ → Entry → Action
deriving DecidableEq, Repr

/-- The mutable state owned by one `run`: the `combinations` map (an
association list keyed by combination string, src line 128) together with
a counter supplying the opaque handles returned by `addError`. -/
structure St where
  combinations : List (String × Entry)
  nextHandle : ℕ
deriving DecidableEq, Repr

/-- JS property lookup `combinations[key]` on the association list. -/
def lookupKey : List (String × Entry) → String → Option Entry
  | [], _ => none
  | p :: rest, key => if p.1 = key then some p.2 else lookupKey rest key

/-- The combination key built at src lines 64–67, from the string forms of
the original (pre-simulation) colors, the deficiency identifier, and the
required-ratio string. -/
def mkKey (fg bg : Color) (blindness req : String) : String :=
  colorToString fg ++ "/" ++ colorToString bg ++ "/" ++ blindness ++ "/" ++ req

/-- `ColorBlindContrastPlugin.runOneType` (src lines 56–110), embedded as
a state transformer returning the updated state and the list of emitted
effects.  `fg0`/`bg0` are the resolved original colors, `blindness` the
internal deficiency identifier, `bn` its display name. -/
def runOneType (env : Env) (el : ℕ) (st : St) (fg0 bg0 : Color)
    (style : TextStyle) (blindness : String) (bn : String) : St × List Action :=
  let req := requiredStr (env.largeFont style)
  let key := mkKey fg0 bg0 blindness req
  let fg := blind (env.matrixOf blindness) fg0
  let bg := blind (env.matrixOf blindness) bg0
  let cr := toFixed2 (env.contrast fg bg)
  if !(isLowContrast cr (env.largeFont style)) then
    match lookupKey st.combinations key with
    | some _ => (st, [])
    | none =>
        ({ st with combinations := (key, Entry.passed) :: st.combinations },
         [Action.successLabel el cr])
  else
    match lookupKey st.combinations key with
    | some e => (st, [Action.errorLabel el cr e])
    | none =>
        let h := st.nextHandle
        ({ combinations := (key, Entry.errorRef h) :: st.combinations,
           nextHandle := h + 1 },
         [Action.newError el bn h, Action.errorLabel el cr (Entry.errorRef h)])

/-- The `[<internal name>, <name used on UI and in styles>]` table at src
lines 131–135. -/
def blindnesses : List (String × String) :=
  [("protan", "protanopia"), ("deutan", "deuteranopia"), ("tritan", "tritanopia")]

/-- The temporary `axs.utils.parseColor` proxy installed by `run` (src
lines 118–124): maps exactly the string "transparent" to
`new axs.utils.Color(0, 0, 0, 0)` and delegates every other string to the
saved original. -/
def parseColorOverride (orig : String → Color) (colorString : String) : Color :=
  if colorString = "transparent" then { red := 0, green := 0, blue := 0, alpha := 0 }
  else orig colorString

/-- The per-element body of the `$("*").each` loop (src lines 137–161):
elements filtered out by the external visibility/text checks resolve to
`none` and are skipped; otherwise the three deficiency types are
processed in order against the shared state. -/
def runElem (env : Env) (resolved : Option (Color × Color × TextStyle)) (el : ℕ)
    (acc : St × List Action) : St × List Action :=
  match resolved with
  | none => acc
  | some (fg, bg, style) =>
      blindnesses.foldl (fun a b =>
        let r := runOneType env el a.1 fg bg style b.1 b.2
        (r.1, a.2 ++ r.2)) acc

/-- `ColorBlindContrastPlugin.run` (src lines 112–165): saves the current
`axs.utils.parseColor`, installs `parseColorOverride` over it for the
duration of the element loop (the external color resolution `resolve`
receives the overridden parser), starts from an empty `combinations` map,
and finally restores the saved parser, returned as the first component
(the post-run value of the `axs.utils.parseColor` global). -/
def run (env : Env)
    (resolve : (String → Color) → ℕ → Option (Color × Color × TextStyle))
    (parseColor0 : String → Color) (elements : List ℕ) :
    (String → Color) × St × List Action :=
  let saved := parseColor0
  let pc := parseColorOverride saved
  let res := elements.foldl (fun acc el => runElem env (resolve pc el) el acc)
    ({ combinations := [], nextHandle := 0 }, [])
  (saved, res)

/-! ## Arithmetic helper lemmas -/

theorem clamp255_nonneg (x : ℚ) : 0 ≤ clamp255 x := le_max_left 0 _

theorem clamp255_le (x : ℚ) : clamp255 x ≤ 255 := by
  unfold clamp255
  rcases le_total 0 (min x 255) with h | h
  · rw [max_eq_right h]; exact min_le_right x 255
  · rw [max_eq_left h]; norm_num

theorem clamp255_of_mem (x : ℚ) (h0 : 0 ≤ x) (h1 : x ≤ 255) : clamp255 x = x := by
  unfold clamp255
  rw [min_eq_left h1, max_eq_right h0]

theorem truncQ_of_nonneg (x : ℚ) (h : 0 ≤ x) : truncQ x = ⌊x⌋ := if_pos h

theorem toInt32_of_mem (x : ℚ) (h0 : 0 ≤ x) (h1 : x ≤ 255) : toInt32 x = ⌊x⌋ := by
  unfold toInt32
  rw [truncQ_of_nonneg x h0]
  have hf0 : (0 : ℤ) ≤ ⌊x⌋ := Int.le_floor.mpr (by exact_mod_cast h0)
  have hf1 : ⌊x⌋ ≤ 255 := by
    have := (Int.floor_le x).trans h1
    exact_mod_cast this
  have hmod : ⌊x⌋ % (2 ^ 32 : ℤ) = ⌊x⌋ :=
    Int.emod_eq_of_lt hf0 (by omega)
  rw [hmod, if_pos (by omega)]

/-- The channel-level description of `blind`: each output channel is the
floor of the clamped raw transform value, and alpha passes through. -/
theorem blind_eq_floor (m : BlindMatrix) (c : Color) :
    blind m c =
      { red := (⌊clamp255 (rawR m c)⌋ : ℚ)
        green := (⌊clamp255 (rawG m c)⌋ : ℚ)
        blue := (⌊clamp255 (rawB m c)⌋ : ℚ)
        alpha := c.alpha } := by
  unfold blind blinder
  have hr := toInt32_of_mem _ (clamp255_nonneg (rawR m c)) (clamp255_le (rawR m c))
  have hg := toInt32_of_mem _ (clamp255_nonneg (rawG m c)) (clamp255_le (rawG m c))
  have hb := toInt32_of_mem _ (clamp255_nonneg (rawB m c)) (clamp255_le (rawB m c))
  simp only [hr, hg, hb]

theorem floor_clamp_nonneg (x : ℚ) : (0 : ℤ) ≤ ⌊clamp255 x⌋ :=
  Int.le_floor.mpr (by exact_mod_cast clamp255_nonneg x)

theorem floor_clamp_le (x : ℚ) : ⌊clamp255 x⌋ ≤ 255 := by
  have := (Int.floor_le (clamp255 x)).trans (clamp255_le x)
  exact_mod_cast this

theorem floor_clamp_nonneg_q (x : ℚ) : (0 : ℚ) ≤ (⌊clamp255 x⌋ : ℚ) := by
  exact_mod_cast floor_clamp_nonneg x

theorem floor_clamp_le_q (x : ℚ) : ((⌊clamp255 x⌋ : ℚ)) ≤ 255 := by
  exact_mod_cast floor_clamp_le x

/-! ## Claims about the simulation step -/

/-- C2: every channel of the simulated color is an integer in 0–255,
obtained from the raw transform value by clamping into [0, 255] followed
by floor-truncation (the fractional remainder is discarded, not rounded). -/
theorem contrast_C2 (m : BlindMatrix) (c : Color) :
    (∃ n : ℤ, (blind m c).red = (n : ℚ) ∧ 0 ≤ n ∧ n ≤ 255 ∧ n = ⌊clamp255 (rawR m c)⌋) ∧
    (∃ n : ℤ, (blind m c).green = (n : ℚ) ∧ 0 ≤ n ∧ n ≤ 255 ∧ n = ⌊clamp255 (rawG m c)⌋) ∧
    (∃ n : ℤ, (blind m c).blue = (n : ℚ) ∧ 0 ≤ n ∧ n ≤ 255 ∧ n = ⌊clamp255 (rawB m c)⌋) := by
  rw [blind_eq_floor]
  exact ⟨⟨_, rfl, floor_clamp_nonneg _, floor_clamp_le _, rfl⟩,
         ⟨_, rfl, floor_clamp_nonneg _, floor_clamp_le _, rfl⟩,
         ⟨_, rfl, floor_clamp_nonneg _, floor_clamp_le _, rfl⟩⟩

/-- C7: `blind` preserves the alpha channel unchanged and transforms only
the red/green/blue channels (the output is a fresh color whose R/G/B
depend only on the input's R/G/B). -/
theorem contrast_C7 (m : BlindMatrix) (c : Color) :
    (blind m c).alpha = c.alpha ∧
    ∀ a : ℚ, blind m { red := c.red, green := c.green, blue := c.blue, alpha := a } =
      { red := (blind m c).red, green := (blind m c).green, blue := (blind m c).blue,
        alpha := a } := by
  constructor
  · rw [blind_eq_floor]
  · intro a
    rw [blind_eq_floor, blind_eq_floor]
    simp only [rawR, rawG, rawB]

/-- The identity coefficient matrix, a concrete instance used to exhibit
the behavior of the output pipeline on out-of-range inputs. -/
def idMat : BlindMatrix := ⟨1, 0, 0, 0, 1, 0, 0, 0, 1⟩

/-- C3 counterexample: the claimed "invalid color" failure does not exist.
`blind` (and the rest of the src) contains no input validation or throw:
on the out-of-range input Color(300, 0, 0, 1) it returns the normal color
Color(255, 0, 0, 1) — the raw input value is silently brought into range
by the output clamp — instead of failing fast. -/
theorem contrast_C3_counterexample :
    blind idMat { red := 300, green := 0, blue := 0, alpha := 1 } =
      { red := 255, green := 0, blue := 0, alpha := 1 } := by
  rw [blind_eq_floor]
  norm_num [rawR, rawG, rawB, idMat, clamp255]

/-- C3 (amended): the core performs no input validation: a Color with a
channel outside 0–255 is not rejected with an "invalid color" error —
`blind` processes it normally, returning a color whose channels have been
brought into 0–255 by the output clamping step, with alpha untouched. -/
theorem contrast_C3_amended (m : BlindMatrix) (c : Color)
    (_hbad : c.red < 0 ∨ 255 < c.red ∨ c.green < 0 ∨ 255 < c.green ∨
      c.blue < 0 ∨ 255 < c.blue) :
    ∃ out : Color, blind m c = out ∧
      0 ≤ out.red ∧ out.red ≤ 255 ∧ 0 ≤ out.green ∧ out.green ≤ 255 ∧
      0 ≤ out.blue ∧ out.blue ≤ 255 ∧ out.alpha = c.alpha := by
  refine ⟨blind m c, rfl, ?_⟩
  rw [blind_eq_floor]
  exact ⟨floor_clamp_nonneg_q _, floor_clamp_le_q _, floor_clamp_nonneg_q _,
         floor_clamp_le_q _, floor_clamp_nonneg_q _, floor_clamp_le_q _, rfl⟩

/-- Witness for the amended C3 at the concrete invalid input
Color(300, 0, 0, 1). -/
theorem contrast_C3_amended_witness :
    ∃ out : Color, blind idMat { red := 300, green := 0, blue := 0, alpha := 1 } = out ∧
      0 ≤ out.red ∧ out.red ≤ 255 ∧ 0 ≤ out.green ∧ out.green ≤ 255 ∧
      0 ≤ out.blue ∧ out.blue ≤ 255 ∧ out.alpha = 1 :=
  contrast_C3_amended idMat { red := 300, green := 0, blue := 0, alpha := 1 }
    (Or.inr (Or.inl (by norm_num)))

/-- C8: achromatic fixed points.  For any deficiency whose coefficient
rows each sum to 1 (the property the spec's "fixed 3×3-style coefficient"
transform must have for its stated achromatic no-op behavior), pure black
and pure white are mapped to themselves, for every alpha. -/
theorem contrast_C8 (m : BlindMatrix)
    (hr : m.rr + m.rg + m.rb = 1) (hg : m.gr + m.gg + m.gb = 1)
    (hb : m.br + m.bg + m.bb = 1) (a : ℚ) :
    blind m { red := 0, green := 0, blue := 0, alpha := a } =
      { red := 0, green := 0, blue := 0, alpha := a } ∧
    blind m { red := 255, green := 255, blue := 255, alpha := a } =
      { red := 255, green := 255, blue := 255, alpha := a } := by
  constructor
  · rw [blind_eq_floor]
    norm_num [rawR, rawG, rawB, clamp255]
  · rw [blind_eq_floor]
    have er : rawR m { red := 255, green := 255, blue := 255, alpha := a } = 255 := by
      simp only [rawR]; linear_combination (255 : ℚ) * hr
    have eg : rawG m { red := 255, green := 255, blue := 255, alpha := a } = 255 := by
      simp only [rawG]; linear_combination (255 : ℚ) * hg
    have eb : rawB m { red := 255, green := 255, blue := 255, alpha := a } = 255 := by
      simp only [rawB]; linear_combination (255 : ℚ) * hb
    rw [er, eg, eb, clamp255_of_mem 255 (by norm_num) (by norm_num)]
    norm_num

/-- Witness for C8 at a concrete protanopia-style coefficient matrix
(rows 0.567/0.433/0, 0.558/0.442/0, 0/0.242/0.758) and alpha 1. -/
theorem contrast_C8_witness :
    blind ⟨Rat.divInt 567 1000, Rat.divInt 433 1000, 0,
           Rat.divInt 558 1000, Rat.divInt 442 1000, 0,
           0, Rat.divInt 242 1000, Rat.divInt 758 1000⟩
      { red := 0, green := 0, blue := 0, alpha := 1 } =
      { red := 0, green := 0, blue := 0, alpha := 1 } ∧
    blind ⟨Rat.divInt 567 1000, Rat.divInt 433 1000, 0,
           Rat.divInt 558 1000, Rat.divInt 442 1000, 0,
           0, Rat.divInt 242 1000, Rat.divInt 758 1000⟩
      { red := 255, green := 255, blue := 255, alpha := 1 } =
      { red := 255, green := 255, blue := 255, alpha := 1 } :=
  contrast_C8 _ (by norm_num [Rat.divInt_eq_div]) (by norm_num [Rat.divInt_eq_div])
    (by norm_num [Rat.divInt_eq_div]) 1

/-! ## Behavior of `runOneType` -/

/-- The combination key `runOneType` builds for given inputs (src lines
62–67): a function of the original colors, the deficiency identifier and
the required-ratio string only. -/
def keyOf (env : Env) (fg0 bg0 : Color) (style : TextStyle) (bl : String) : String :=
  mkKey fg0 bg0 bl (requiredStr (env.largeFont style))

/-- The two-decimal contrast value `runOneType` computes for given inputs
(src lines 69–72), from the simulated colors. -/
def crOf (env : Env) (fg0 bg0 : Color) (bl : String) : ℚ :=
  toFixed2 (env.contrast (blind (env.matrixOf bl) fg0) (blind (env.matrixOf bl) bg0))

theorem runOneType_pass_unseen (env : Env) (el : ℕ) (st : St) (fg0 bg0 : Color)
    (style : TextStyle) (bl bn : String)
    (hp : isLowContrast (crOf env fg0 bg0 bl) (env.largeFont style) = false)
    (hl : lookupKey st.combinations (keyOf env fg0 bg0 style bl) = none) :
    runOneType env el st fg0 bg0 style bl bn =
      ({ st with combinations :=
          (keyOf env fg0 bg0 style bl, Entry.passed) :: st.combinations },
       [Action.successLabel el (crOf env fg0 bg0 bl)]) := by
  unfold runOneType
  simp only [crOf] at hp
  simp only [keyOf] at hl
  simp only [hp, hl, Bool.not_false, if_true]
  rfl

theorem runOneType_pass_seen (env : Env) (el : ℕ) (st : St) (fg0 bg0 : Color)
    (style : TextStyle) (bl bn : String) (e : Entry)
    (hp : isLowContrast (crOf env fg0 bg0 bl) (env.largeFont style) = false)
    (hl : lookupKey st.combinations (keyOf env fg0 bg0 style bl) = some e) :
    runOneType env el st fg0 bg0 style bl bn = (st, []) := by
  unfold runOneType
  simp only [crOf] at hp
  simp only [keyOf] at hl
  simp only [hp, hl, Bool.not_false, if_true]

theorem runOneType_fail_unseen (env : Env) (el : ℕ) (st : St) (fg0 bg0 : Color)
    (style : TextStyle) (bl bn : String)
    (hf : isLowContrast (crOf env fg0 bg0 bl) (env.largeFont style) = true)
    (hl : lookupKey st.combinations (keyOf env fg0 bg0 style bl) = none) :
    runOneType env el st fg0 bg0 style bl bn =
      ({ combinations :=
          (keyOf env fg0 bg0 style bl, Entry.errorRef st.nextHandle) :: st.combinations,
         nextHandle := st.nextHandle + 1 },
       [Action.newError el bn st.nextHandle,
        Action.errorLabel el (crOf env fg0 bg0 bl) (Entry.errorRef st.nextHandle)]) := by
  unfold runOneType
  simp only [crOf] at hf
  simp only [keyOf] at hl
  simp only [hf, hl, Bool.not_true, Bool.false_eq_true, if_false]
  rfl

theorem runOneType_fail_seen (env : Env) (el : ℕ) (st : St) (fg0 bg0 : Color)
    (style : TextStyle) (bl bn : String) (e : Entry)
    (hf : isLowContrast (crOf env fg0 bg0 bl) (env.largeFont style) = true)
    (hl : lookupKey st.combinations (keyOf env fg0 bg0 style bl) = some e) :
    runOneType env el st fg0 bg0 style bl bn =
      (st, [Action.errorLabel el (crOf env fg0 bg0 bl) e]) := by
  unfold runOneType
  simp only [crOf] at hf
  simp only [keyOf] at hl
  simp only [hf, hl, Bool.not_true, Bool.false_eq_true, if_false]
  rfl

theorem lookupKey_cons_self (key : String) (e : Entry) (rest : List (String × Entry)) :
    lookupKey ((key, e) :: rest) key = some e := by
  unfold lookupKey
  rw [if_pos rfl]

/-- Whether an action is an invocation of `addError` (the report-creating
callback `reportFn`). -/
def isReport : Action → Bool
  | Action.newError _ _ _ => true
  | _ => false

/-- Whether an action is the success annotate-label call. -/
def isSuccess : Action → Bool
  | Action.successLabel _ _ => true
  | _ => false

/-- Number of report-creating callback invocations in an action list. -/
def countReports (acts : List Action) : ℕ := (acts.filter isReport).length

/-- Number of success-label invocations in an action list. -/
def countSuccess (acts : List Action) : ℕ := (acts.filter isSuccess).length

/-! ## Claims about deduplication -/

/-- C1: registering the same failing combination twice invokes the
report-creating callback exactly once — at the first occurrence, which
stores the fresh handle — and the second occurrence creates no new report
but emits an error label carrying the same stored handle. -/
theorem contrast_C1 (env : Env) (el1 el2 : ℕ) (st : St) (fg0 bg0 : Color)
    (style : TextStyle) (bl bn : String)
    (hf : isLowContrast (crOf env fg0 bg0 bl) (env.largeFont style) = true)
    (hl : lookupKey st.combinations (keyOf env fg0 bg0 style bl) = none) :
    countReports (runOneType env el1 st fg0 bg0 style bl bn).2 = 1 ∧
    countReports (runOneType env el2 (runOneType env el1 st fg0 bg0 style bl bn).1
      fg0 bg0 style bl bn).2 = 0 ∧
    (runOneType env el1 st fg0 bg0 style bl bn).2 =
      [Action.newError el1 bn st.nextHandle,
       Action.errorLabel el1 (crOf env fg0 bg0 bl) (Entry.errorRef st.nextHandle)] ∧
    (runOneType env el2 (runOneType env el1 st fg0 bg0 style bl bn).1
      fg0 bg0 style bl bn).2 =
      [Action.errorLabel el2 (crOf env fg0 bg0 bl) (Entry.errorRef st.nextHandle)] := by
  have h1 := runOneType_fail_unseen env el1 st fg0 bg0 style bl bn hf hl
  have hl2 : lookupKey (runOneType env el1 st fg0 bg0 style bl bn).1.combinations
      (keyOf env fg0 bg0 style bl) = some (Entry.errorRef st.nextHandle) := by
    rw [h1]
    exact lookupKey_cons_self _ _ _
  have h2 := runOneType_fail_seen env el2 _ fg0 bg0 style bl bn
    (Entry.errorRef st.nextHandle) hf hl2
  rw [h2, h1]
  refine ⟨rfl, rfl, rfl, rfl⟩

/-- C5: a passing combination is annotated with a success label exactly
once — at its first occurrence, which marks the key seen — and a later
passing occurrence of the same key emits no action at all and leaves the
registry state unchanged. -/
theorem contrast_C5 (env : Env) (el1 el2 : ℕ) (st : St) (fg0 bg0 : Color)
    (style : TextStyle) (bl bn : String)
    (hp : isLowContrast (crOf env fg0 bg0 bl) (env.largeFont style) = false)
    (hl : lookupKey st.combinations (keyOf env fg0 bg0 style bl) = none) :
    (runOneType env el1 st fg0 bg0 style bl bn).2 =
      [Action.successLabel el1 (crOf env fg0 bg0 bl)] ∧
    runOneType env el2 (runOneType env el1 st fg0 bg0 style bl bn).1
      fg0 bg0 style bl bn =
      ((runOneType env el1 st fg0 bg0 style bl bn).1, []) ∧
    countSuccess ((runOneType env el1 st fg0 bg0 style bl bn).2 ++
      (runOneType env el2 (runOneType env el1 st fg0 bg0 style bl bn).1
        fg0 bg0 style bl bn).2) = 1 := by
  have h1 := runOneType_pass_unseen env el1 st fg0 bg0 style bl bn hp hl
  have hl2 : lookupKey (runOneType env el1 st fg0 bg0 style bl bn).1.combinations
      (keyOf env fg0 bg0 style bl) = some Entry.passed := by
    rw [h1]
    exact lookupKey_cons_self _ _ _
  have h2 := runOneType_pass_seen env el2 _ fg0 bg0 style bl bn Entry.passed hp hl2
  rw [h2, h1]
  refine ⟨rfl, rfl, rfl⟩

/-! ## Concrete instances used to exercise the pipeline -/

theorem toFixed2_intCast (n : ℤ) : toFixed2 (n : ℚ) = (n : ℚ) := by
  unfold toFixed2
  have h : (100 : ℚ) * (n : ℚ) = ((100 * n : ℤ) : ℚ) := by push_cast; ring
  rw [h, round_intCast, Rat.divInt_eq_div]
  push_cast
  field_simp

theorem toFixed2_one : toFixed2 1 = 1 := by simpa using toFixed2_intCast 1

theorem toFixed2_21 : toFixed2 21 = 21 := by simpa using toFixed2_intCast 21

theorem isLowContrast_one : isLowContrast 1 false = true := by
  simp [isLowContrast, requiredVal, requiredStr, Rat.divInt_eq_div]
  norm_num

theorem isLowContrast_21 : isLowContrast 21 false = false := by
  simp [isLowContrast, requiredVal, requiredStr, Rat.divInt_eq_div]
  norm_num

/-- A saturating coefficient matrix: every raw channel of a color with a
positive channel exceeds 255 and is clamped to 255, so distinct colors
can simulate to the same output. -/
def satMat : BlindMatrix := ⟨26, 26, 26, 26, 26, 26, 26, 26, 26⟩

def colorA : Color := ⟨10, 0, 0, 1⟩

def colorB : Color := ⟨20, 0, 0, 1⟩

def styleD : TextStyle := ⟨none, false⟩

def st0 : St := { combinations := [], nextHandle := 0 }

/-- A concrete environment: non-large font, a constant contrast value of
1 (failing both thresholds), saturating simulation coefficients. -/
def envSat : Env := ⟨fun _ => false, fun _ _ => 1, fun _ => satMat⟩

/-- A concrete environment whose constant contrast value 21 passes both
thresholds, with identity simulation coefficients. -/
def envPass : Env := ⟨fun _ => false, fun _ _ => 21, fun _ => idMat⟩

theorem crOf_envSat (c d : Color) (bl : String) : crOf envSat c d bl = 1 := by
  show toFixed2 1 = 1
  exact toFixed2_one

theorem crOf_envPass (c d : Color) (bl : String) : crOf envPass c d bl = 21 := by
  show toFixed2 21 = 21
  exact toFixed2_21

theorem envSat_fails (c d : Color) (bl : String) :
    isLowContrast (crOf envSat c d bl) (envSat.largeFont styleD) = true := by
  rw [crOf_envSat]
  exact isLowContrast_one

theorem envPass_passes (c d : Color) (bl : String) :
    isLowContrast (crOf envPass c d bl) (envPass.largeFont styleD) = false := by
  rw [crOf_envPass]
  exact isLowContrast_21

/-! ## Claim C9: the key is built before the simulation is applied -/

/-- C9: the registry key recorded by `runOneType` is derived from the
original, pre-simulation colors (conjunct 1, for an arbitrary
environment); consequently two inputs whose original colors differ keep
distinct keys and are reported separately even when their simulated
colors — and hence their contrast values — coincide, exhibited on the
saturating environment where Color(10,0,0,1) and Color(20,0,0,1) simulate
to the same color (conjuncts 2–6). -/
theorem contrast_C9 (env : Env) (el : ℕ) (st : St) (fg0 bg0 : Color)
    (style : TextStyle) (bl bn : String)
    (hf : isLowContrast (crOf env fg0 bg0 bl) (env.largeFont style) = true)
    (hl : lookupKey st.combinations (keyOf env fg0 bg0 style bl) = none) :
    (runOneType env el st fg0 bg0 style bl bn).1.combinations =
      (mkKey fg0 bg0 bl (requiredStr (env.largeFont style)),
        Entry.errorRef st.nextHandle) :: st.combinations ∧
    blind satMat colorA = blind satMat colorB ∧
    crOf envSat colorA colorA "protan" = crOf envSat colorB colorB "protan" ∧
    keyOf envSat colorA colorA styleD "protan" ≠ keyOf envSat colorB colorB styleD "protan" ∧
    (runOneType envSat 0 st0 colorA colorA styleD "protan" "protanopia").2 =
      [Action.newError 0 "protanopia" 0, Action.errorLabel 0 1 (Entry.errorRef 0)] ∧
    (runOneType envSat 1
        (runOneType envSat 0 st0 colorA colorA styleD "protan" "protanopia").1
        colorB colorB styleD "protan" "protanopia").2 =
      [Action.newError 1 "protanopia" 1, Action.errorLabel 1 1 (Entry.errorRef 1)] := by
  have hblind : blind satMat colorA = blind satMat colorB := by
    rw [blind_eq_floor, blind_eq_floor]
    norm_num [rawR, rawG, rawB, satMat, colorA, colorB, clamp255, min_def, max_def]
  have hkeys : keyOf envSat colorA colorA styleD "protan" ≠
      keyOf envSat colorB colorB styleD "protan" := by decide
  have hA := runOneType_fail_unseen envSat 0 st0 colorA colorA styleD "protan" "protanopia"
    (envSat_fails colorA colorA "protan") rfl
  have hlB : lookupKey (runOneType envSat 0 st0 colorA colorA styleD "protan"
      "protanopia").1.combinations (keyOf envSat colorB colorB styleD "protan") = none := by
    rw [hA]
    show lookupKey [(keyOf envSat colorA colorA styleD "protan", Entry.errorRef 0)]
      (keyOf envSat colorB colorB styleD "protan") = none
    unfold lookupKey
    rw [if_neg hkeys]
    rfl
  have hB := runOneType_fail_unseen envSat 1 _ colorB colorB styleD "protan" "protanopia"
    (envSat_fails colorB colorB "protan") hlB
  refine ⟨?_, hblind, rfl, hkeys, ?_, ?_⟩
  · rw [runOneType_fail_unseen env el st fg0 bg0 style bl bn hf hl]
    rfl
  · rw [hA, crOf_envSat]
    rfl
  · rw [hB, hA, crOf_envSat colorB colorB "protan"]
    rfl

/-! ## Claims about the threshold decision -/

/-- C4: the sufficiency decision is numeric and inclusive at the
boundary: `isSufficient r req` holds iff the numeric value of `req` is at
most `r`; exactly 4.50 passes "4.5", 4.49 fails it, and exactly 3.00
passes "3.0".  The last conjunct shows string comparison would disagree:
21.00 is numerically sufficient for "4.5" although the string "21.00"
orders lexicographically below "4.5". -/
theorem contrast_C4 :
    (∀ (r : ℚ) (req : String), isSufficient r req = true ↔ requiredVal req ≤ r) ∧
    isSufficient (Rat.divInt 450 100) "4.5" = true ∧
    isSufficient (Rat.divInt 449 100) "4.5" = false ∧
    isSufficient (Rat.divInt 300 100) "3.0" = true ∧
    (isSufficient 21 "4.5" = true ∧ "21.00" < "4.5") := by
  have h45 : requiredVal "4.5" = Rat.divInt 9 2 := by
    unfold requiredVal
    rw [if_neg (by decide)]
  have h30 : requiredVal "3.0" = 3 := by
    unfold requiredVal
    rw [if_pos rfl]
  refine ⟨fun r req => by simp [isSufficient], ?_, ?_, ?_, ?_, ?_⟩
  · simp only [isSufficient, h45]
    norm_num [Rat.divInt_eq_div]
  · simp only [isSufficient, h45]
    norm_num [Rat.divInt_eq_div]
  · simp only [isSufficient, h30]
    norm_num [Rat.divInt_eq_div]
  · simp only [isSufficient, h45]
    norm_num [Rat.divInt_eq_div]
  · rw [String.lt_iff_toList_lt]
    decide

/-- C6: the required-ratio decision is total and two-valued — for every
style it is exactly "3.0" when the style classifies as large text and
exactly "4.5" otherwise, including the default when size data is
missing. -/
theorem contrast_C6 (boldTh regTh : ℚ) (style : TextStyle) :
    (requiredStr (isLargeFont boldTh regTh style) = "3.0" ∨
     requiredStr (isLargeFont boldTh regTh style) = "4.5") ∧
    (isLargeFont boldTh regTh style = true ↔
     requiredStr (isLargeFont boldTh regTh style) = "3.0") ∧
    (style.fontSize = none → requiredStr (isLargeFont boldTh regTh style) = "4.5") := by
  refine ⟨?_, ?_, ?_⟩
  · cases isLargeFont boldTh regTh style
    · exact Or.inr rfl
    · exact Or.inl rfl
  · cases h : isLargeFont boldTh regTh style
    · simp only [requiredStr, if_neg Bool.false_ne_true, Bool.false_eq_true, false_iff]
      intro hc
      exact absurd hc (by decide)
    · simp [requiredStr]
  · intro h
    have : isLargeFont boldTh regTh style = false := by
      unfold isLargeFont
      rw [h]
    rw [this]
    rfl

/-- Witness for C6 at thresholds 14 and 18 and a style with no size data:
the decision defaults to "4.5". -/
theorem contrast_C6_witness :
    requiredStr (isLargeFont 14 18 { fontSize := none, bold := false }) = "4.5" :=
  (contrast_C6 14 18 { fontSize := none, bold := false }).2.2 rfl

/-! ## Claim C10: the parseColor override installed by `run` -/

/-- C10: `run` installs over the saved `axs.utils.parseColor` an override
mapping exactly "transparent" to the zero-alpha black Color(0,0,0,0) and
delegating every other string to the saved original; the element loop
runs against the overridden parser, and a completed run restores (and
thus leaves unchanged) the original parser. -/
theorem contrast_C10 (pc : String → Color) :
    parseColorOverride pc "transparent" = { red := 0, green := 0, blue := 0, alpha := 0 } ∧
    (∀ s : String, s ≠ "transparent" → parseColorOverride pc s = pc s) ∧
    ∀ (env : Env) (resolve : (String → Color) → ℕ → Option (Color × Color × TextStyle))
      (elements : List ℕ),
      (run env resolve pc elements).1 = pc ∧
      run env resolve pc elements =
        (pc, elements.foldl
          (fun acc el => runElem env (resolve (parseColorOverride pc) el) el acc)
          ({ combinations := [], nextHandle := 0 }, [])) := by
  refine ⟨?_, ?_, ?_⟩
  · unfold parseColorOverride
    rw [if_pos rfl]
  · intro s hs
    unfold parseColorOverride
    rw [if_neg hs]
  · intro env resolve elements
    exact ⟨rfl, rfl⟩

/-- Witness for C10 at a concrete original parser and the non-transparent
string "red". -/
theorem contrast_C10_witness :
    parseColorOverride (fun _ => { red := 7, green := 8, blue := 9, alpha := 1 })
      "transparent" = { red := 0, green := 0, blue := 0, alpha := 0 } ∧
    parseColorOverride (fun _ => { red := 7, green := 8, blue := 9, alpha := 1 }) "red" =
      (fun _ => ({ red := 7, green := 8, blue := 9, alpha := 1 } : Color)) "red" :=
  ⟨(contrast_C10 (fun _ => { red := 7, green := 8, blue := 9, alpha := 1 })).1,
   (contrast_C10 (fun _ => { red := 7, green := 8, blue := 9, alpha := 1 })).2.1 "red"
     (by simp)⟩

/-! ## Witnesses for the dedup and simulation claims -/

/-- Witness for C1: the failing combination of Color(10,0,0,1) on itself
under the saturating environment, registered twice from the empty
registry. -/
theorem contrast_C1_witness :
    countReports (runOneType envSat 2 st0 colorA colorA styleD "protan" "protanopia").2 = 1 ∧
    countReports (runOneType envSat 3 (runOneType envSat 2 st0 colorA colorA styleD "protan"
      "protanopia").1 colorA colorA styleD "protan" "protanopia").2 = 0 ∧
    (runOneType envSat 2 st0 colorA colorA styleD "protan" "protanopia").2 =
      [Action.newError 2 "protanopia" st0.nextHandle,
       Action.errorLabel 2 (crOf envSat colorA colorA "protan")
         (Entry.errorRef st0.nextHandle)] ∧
    (runOneType envSat 3 (runOneType envSat 2 st0 colorA colorA styleD "protan"
      "protanopia").1 colorA colorA styleD "protan" "protanopia").2 =
      [Action.errorLabel 3 (crOf envSat colorA colorA "protan")
        (Entry.errorRef st0.nextHandle)] :=
  contrast_C1 envSat 2 3 st0 colorA colorA styleD "protan" "protanopia"
    (envSat_fails colorA colorA "protan") rfl

/-- Witness for C5: the passing combination of Color(10,0,0,1) on itself
under the passing environment, evaluated twice from the empty registry. -/
theorem contrast_C5_witness :
    (runOneType envPass 4 st0 colorA colorA styleD "protan" "protanopia").2 =
      [Action.successLabel 4 (crOf envPass colorA colorA "protan")] ∧
    runOneType envPass 5 (runOneType envPass 4 st0 colorA colorA styleD "protan"
      "protanopia").1 colorA colorA styleD "protan" "protanopia" =
      ((runOneType envPass 4 st0 colorA colorA styleD "protan" "protanopia").1, []) ∧
    countSuccess ((runOneType envPass 4 st0 colorA colorA styleD "protan" "protanopia").2 ++
      (runOneType envPass 5 (runOneType envPass 4 st0 colorA colorA styleD "protan"
        "protanopia").1 colorA colorA styleD "protan" "protanopia").2) = 1 :=
  contrast_C5 envPass 4 5 st0 colorA colorA styleD "protan" "protanopia"
    (envPass_passes colorA colorA "protan") rfl

/-- Witness for C9 at the saturating environment, Color(20,0,0,1) on
itself, from the empty registry. -/
theorem contrast_C9_witness :
    (runOneType envSat 6 st0 colorB colorB styleD "protan" "protanopia").1.combinations =
      (mkKey colorB colorB "protan" (requiredStr (envSat.largeFont styleD)),
        Entry.errorRef st0.nextHandle) :: st0.combinations ∧
    blind satMat colorA = blind satMat colorB ∧
    crOf envSat colorA colorA "protan" = crOf envSat colorB colorB "protan" ∧
    keyOf envSat colorA colorA styleD "protan" ≠ keyOf envSat colorB colorB styleD "protan" ∧
    (runOneType envSat 0 st0 colorA colorA styleD "protan" "protanopia").2 =
      [Action.newError 0 "protanopia" 0, Action.errorLabel 0 1 (Entry.errorRef 0)] ∧
    (runOneType envSat 1
        (runOneType envSat 0 st0 colorA colorA styleD "protan" "protanopia").1
        colorB colorB styleD "protan" "protanopia").2 =
      [Action.newError 1 "protanopia" 1, Action.errorLabel 1 1 (Entry.errorRef 1)] :=
  contrast_C9 envSat 6 st0 colorB colorB styleD "protan" "protanopia"
    (envSat_fails colorB colorB "protan") rfl

end Tota11y
